import Mathlib

/-!
Verification of the HDFS storage backend (src/Resources/Storage/HDFSStorage.py)
against its natural-language specification.

The embedding follows the Python source line by line.  Conventions:

* A DIRAC result dictionary `S_OK(v) = \x7b'OK': True, 'Value': v\x7d` /
  `S_ERROR(m) = \x7b'OK': False, 'Message': m\x7d` is embedded as `DRes`.
* A Python exception escaping a method is embedded in an `Except PyErr`
  layer around the returned `DRes`.  Methods that mutate the remote state
  also return the new state, even when an exception escapes (Python
  `try`/`except` continues with the mutated state).
* Python dictionaries are embedded as association lists with insertion
  order as iteration order; assignment replaces in place or appends.
* The remote HDFS filesystem and the local filesystem are finite maps
  from path strings to entries, plus per-path failure injections that
  let a theorem make a pydoop primitive raise `IOError` with a chosen
  message, as the capability contract in the spec allows.
-/

/-- Embeds the Python exceptions that the source code can raise:
`TypeError`, `KeyError`, `UnboundLocalError`, `IndexError` and `IOError`
(the exception class pydoop primitives raise). -/
inductive PyErr where
| typeError (msg : String)
| keyError (key : String)
| unboundLocal (var : String)
| indexError
| ioError (msg : String)
deriving DecidableEq, Repr

/-- Renders an exception as Python `str(e)` does, used where the source
formats a caught exception into an error message. -/
def PyErr.text : PyErr → String
| .typeError m => m
| .keyError k => k
| .unboundLocal v => v
| .indexError => "list index out of range"
| .ioError m => m

/-- Embeds a DIRAC result dictionary: `DRes.ok v` is `S_OK(v)` and
`DRes.err m` is `S_ERROR(m)`. -/
inductive DRes (α : Type) where
| ok (v : α)
| err (msg : String)
deriving DecidableEq, Repr

/-- Whether the first character list starts with the second. -/
def listStartsWith : List Char → List Char → Bool
| _, [] => true
| [], _ :: _ => false
| c :: cs, d :: ds => c == d && listStartsWith cs ds

/-- Whether the second character list occurs inside the first. -/
def listHasSub : List Char → List Char → Bool
| [], sub => sub.isEmpty
| c :: cs, sub => listStartsWith (c :: cs) sub || listHasSub cs sub

/-- Embeds the Python 2 test `sub in s` on strings. -/
def containsSub (s sub : String) : Bool :=
  listHasSub s.data sub.data

/-- Whether `s` starts with `p`, on the character lists. -/
def strStartsWith (s p : String) : Bool :=
  listStartsWith s.data p.data

/-- Embeds assignment `d[k] = v` on a Python dictionary held as an
association list: replaces the value in place when the key is present,
appends otherwise. -/
def dset {α : Type} (d : List (String × α)) (k : String) (v : α) : List (String × α) :=
  if d.any (fun kv => kv.1 == k) then
    d.map (fun kv => if kv.1 == k then (k, v) else kv)
  else
    d ++ [(k, v)]

/-- Keeps the first occurrence of every element, dropping later
duplicates; the order of first occurrences is preserved. -/
def dedup : List String → List String
| [] => []
| x :: xs => x :: dedup (xs.filter (fun y => y != x))
termination_by l => l.length
decreasing_by
  simpa using Nat.lt_succ_of_le (List.length_filter_le _ _)

/-- A raw argument to a public batch operation: a single path, a list of
paths, or a mapping from destination path to source path. -/
inductive Arg where
| one (p : String)
| many (ps : List String)
| mapping (m : List (String × String))

/-- Modelled from the spec: `checkArgumentFormat`
(DIRAC.Resources.Utilities) is repository code that is not under src/.
Spec section 4.1: for read/inspect/remove-style calls it produces an
ordered sequence of unique paths; a mapping contributes its keys. -/
def normalizePaths : Arg → DRes (List String)
| .one p => .ok [p]
| .many ps => .ok (dedup ps)
| .mapping m => .ok (dedup (m.map Prod.fst))

/-- Modelled from the spec: `checkArgumentFormat` for put-style calls
(spec section 4.1) produces a mapping of destination path to source
path; a scalar or sequence where a mapping is required is an
`ArgumentFormatError` that aborts the whole call. -/
def normalizeMapping : Arg → DRes (List (String × String))
| .mapping m => .ok (m.foldl (fun d kv => dset d kv.1 kv.2) [])
| .one _ => .err "ArgumentFormatError: mapping of destination to source required"
| .many _ => .err "ArgumentFormatError: mapping of destination to source required"

theorem mem_dedup {p : String} : ∀ {l : List String}, p ∈ l → p ∈ dedup l := by
  intro l
  induction l using dedup.induct with
  | case1 => intro h; cases h
  | case2 x xs ih =>
    intro h
    rw [dedup]
    rcases List.mem_cons.mp h with h1 | h2
    · exact h1 ▸ List.mem_cons_self _ _
    · by_cases hx : p = x
      · exact hx ▸ List.mem_cons_self _ _
      · refine List.mem_cons_of_mem _ (ih ?_)
        exact List.mem_filter.mpr ⟨h2, by simpa using hx⟩

/-- Kind of a remote filesystem entry: a file with a size in bytes, or a
directory. -/
inductive HKind where
| file (size : Nat)
| dir
deriving DecidableEq, Repr

/-- One record of a pydoop `hdfs.lsl` listing, with the fields the source
reads: `name`, `kind`, `permissions`, `size`, `last_mod`. -/
structure StatRec where
  name : String
  kind : HKind
  permissions : Nat
  size : Nat
  last_mod : Nat
deriving DecidableEq, Repr

/-- The remote HDFS state: the entries (path to kind, in listing order)
together with per-path failure injections, one per pydoop primitive.  An
injection `some m` makes that primitive raise `IOError(m)` at that path,
as the capability contract of spec sections 2 and 6 allows.  For
`hdfs.put`, the injection also says whether the failed copy leaves a
partial artifact behind and of which size (spec section 4.2 step 4 rolls
back exactly such partial artifacts). -/
structure HFS where
  entries : List (String × HKind)
  failExists : String → Option String
  failIsfile : String → Option String
  failLsl : String → Option String
  failRmr : String → Option String
  failPut : String → Option (String × Option Nat)
  failCp : String → Option String

/-- Looks up the kind of a remote path. -/
def HFS.lookup (fs : HFS) (p : String) : Option HKind :=
  (fs.entries.find? (fun e => e.1 == p)).map Prod.snd

/-- Whether a remote path exists. -/
def HFS.mem (fs : HFS) (p : String) : Bool :=
  (fs.lookup p).isSome

/-- Replaces the entries of a remote state, keeping the injections. -/
def HFS.withEntries (fs : HFS) (es : List (String × HKind)) : HFS :=
  ⟨es, fs.failExists, fs.failIsfile, fs.failLsl, fs.failRmr, fs.failPut, fs.failCp⟩

/-- Writes a file entry at a remote path (dictionary-style set). -/
def HFS.set (fs : HFS) (p : String) (k : HKind) : HFS :=
  fs.withEntries (dset fs.entries p k)

/-- Whether `child` lies strictly below `parent` in the path tree. -/
def underDir (parent child : String) : Bool :=
  strStartsWith child (parent ++ "/")

/-- Whether `child` is a direct child of `parent`. -/
def directChild (parent child : String) : Bool :=
  underDir parent child && !((child.drop (parent.length + 1)).data.any (fun c => c == '/'))

/-- The stat record the model produces for an entry; `size` is the file
size for files and 0 for directories, the remaining fields are fixed
representative values (the embedded code never reads them: the one
consumer, `convertMetadataDict`, raises before reading any field). -/
def statRecOf (p : String) (k : HKind) : StatRec :=
  ⟨p, k, 493, (match k with | .file n => n | .dir => 0), 0⟩

/-- Modelled from the spec: the `stat(path, recursive)` primitive of
RemoteCapability (spec section 2), the role pydoop `hdfs.lsl` plays at
the call sites that read `res[0]` as the metadata record of `path`
itself (spec section 4.3: the first stat record gives the kind of the
path).  A missing path raises `IOError` whose message carries the
`No such file` marker the source special-cases (spec section 6). -/
def hdfsStat (fs : HFS) (p : String) : Except PyErr (List StatRec) :=
  match fs.failLsl p with
  | some m => .error (.ioError m)
  | none =>
    match fs.lookup p with
    | none => .error (.ioError ("No such file or directory: " ++ p))
    | some k => .ok [statRecOf p k]

/-- Modelled from the spec: the `listDirectory(path, recursive)`
primitive of RemoteCapability (spec section 2), the role pydoop
`hdfs.lsl` plays inside `__listSingleDirectory`: the records of the
contents of a directory (direct children, or all strict descendants when
`recursive`), and the single record of a file for a file path.  A
missing path raises `IOError` with the `No such file` marker. -/
def hdfsList (fs : HFS) (p : String) (recursive : Bool) : Except PyErr (List StatRec) :=
  match fs.failLsl p with
  | some m => .error (.ioError m)
  | none =>
    match fs.lookup p with
    | none => .error (.ioError ("No such file or directory: " ++ p))
    | some (.file n) => .ok [statRecOf p (.file n)]
    | some .dir =>
      .ok ((fs.entries.filter
        (fun e => if recursive then underDir p e.1 else directChild p e.1)).map
        (fun e => statRecOf e.1 e.2))

/-- Embeds pydoop `hdfs.path.exists`. -/
def hdfsPathExists (fs : HFS) (p : String) : Except PyErr Bool :=
  match fs.failExists p with
  | some m => .error (.ioError m)
  | none => .ok (fs.mem p)

/-- Embeds pydoop `hdfs.path.isfile`.  The source documents the
primitive as returning `False` for a missing path (the TODO comment in
`__isSingleFile`), so only an injected failure raises here. -/
def hdfsPathIsfile (fs : HFS) (p : String) : Except PyErr Bool :=
  match fs.failIsfile p with
  | some m => .error (.ioError m)
  | none =>
    match fs.lookup p with
    | some (.file _) => .ok true
    | _ => .ok false

/-- Embeds pydoop `hdfs.rmr`: removes a path and its whole subtree; a
missing path raises `IOError` with the `No such file` marker
(`__removeSingleFile` handles exactly that case via its exists helper). -/
def hdfsRmr (fs : HFS) (p : String) : Except PyErr Unit × HFS :=
  match fs.failRmr p with
  | some m => (.error (.ioError m), fs)
  | none =>
    if fs.mem p then
      (.ok (), fs.withEntries (fs.entries.filter
        (fun e => !(e.1 == p) && !(underDir p e.1))))
    else
      (.error (.ioError ("No such file or directory: " ++ p)), fs)

/-- Embeds pydoop `hdfs.put`: on success the destination becomes a file
of the source size; an injected failure raises `IOError` and leaves
either nothing or a partial artifact of the injected size. -/
def hdfsPut (fs : HFS) (dest : String) (size : Nat) : Except PyErr Unit × HFS :=
  match fs.failPut dest with
  | some (m, some k) => (.error (.ioError m), fs.set dest (.file k))
  | some (m, none) => (.error (.ioError m), fs)
  | none => (.ok (), fs.set dest (.file size))

/-- Kind of a local filesystem entry. -/
inductive LEntry where
| file (size : Nat)
| dir
deriving DecidableEq, Repr

/-- The local filesystem: a finite map from path to entry. -/
abbrev LFS := List (String × LEntry)

/-- Looks up a local path. -/
def llookup (lfs : LFS) (p : String) : Option LEntry :=
  (lfs.find? (fun e => e.1 == p)).map Prod.snd

/-- Embeds `os.path.exists`. -/
def localExists (lfs : LFS) (p : String) : Bool :=
  (llookup lfs p).isSome

/-- Embeds `os.path.isfile`. -/
def localIsFile (lfs : LFS) (p : String) : Bool :=
  match llookup lfs p with
  | some (.file _) => true
  | _ => false

/-- Embeds `os.remove`. -/
def lremove (lfs : LFS) (p : String) : LFS :=
  lfs.filter (fun e => !(e.1 == p))

/-- Modelled from the spec: `getSize` (DIRAC.Core.Utilities.File) is
repository code not under src/; it returns the size of a local file and
-1 when the size cannot be obtained (the source compares its result
against -1).  The embedded call sites only reach it on regular files. -/
def localGetSize (lfs : LFS) (p : String) : Int :=
  match llookup lfs p with
  | some (.file n) => (n : Int)
  | _ => -1

/-- Strips the `file://` scheme the source prepends before a pydoop copy
to a local destination: the scheme-qualified name and the plain name
denote the same local file. -/
def dropFileScheme (s : String) : String :=
  if strStartsWith s "file://" then s.drop 7 else s

/-- Embeds pydoop `hdfs.cp` from remote `src` to local destination
`dest` (already scheme-qualified by the caller): on success the local
destination holds a copy of the remote entry.  For a remote directory
only the directory entry itself is materialized: the subtree copy is
not reached by any embedded operation (the one caller copies single
files whose size was already determined). -/
def hdfsCpOut (fs : HFS) (lfs : LFS) (src dest : String) : Except PyErr Unit × LFS :=
  match fs.failCp src with
  | some m => (.error (.ioError m), lfs)
  | none =>
    match fs.lookup src with
    | none => (.error (.ioError ("No such file or directory: " ++ src)), lfs)
    | some (.file n) => (.ok (), dset lfs (dropFileScheme dest) (.file n))
    | some .dir => (.ok (), dset lfs (dropFileScheme dest) .dir)

/-- A local directory tree, used by `putDirectory`: the depth-first walk
of the source recurses along this structure (`os.listdir` enumerates the
children in order). -/
inductive LTree where
| file (name : String) (size : Nat)
| dir (name : String) (children : List LTree)

/-- Name of the entry. -/
def LTree.name : LTree → String
| .file n _ => n
| .dir n _ => n

/-- Embeds `os.path.isdir` on a tree entry. -/
def LTree.isDir : LTree → Bool
| .dir _ _ => true
| .file _ _ => false

mutual

/-- Flattens a local tree rooted at `path` into local filesystem
entries (used to give the nested `putFile` call its local view). -/
def treeEntries : LTree → String → List (String × LEntry)
| .file _ sz, path => [(path, .file sz)]
| .dir _ cs, path => (path, .dir) :: treeChildEntries cs path

/-- Flattens the children of a directory at `path`. -/
def treeChildEntries : List LTree → String → List (String × LEntry)
| [], _ => []
| c :: rest, path =>
  treeEntries c (path ++ "/" ++ c.name) ++ treeChildEntries rest path

end

/-- The Successful/Failed envelope every batch operation returns:
`Successful` maps a path to the per-operation result value, `Failed`
maps a path to its failure value. -/
structure Env (α β : Type) where
  Successful : List (String × α)
  Failed : List (String × β)
deriving DecidableEq, Repr

/-- Embeds the Python 2 exception raised by `res['OK']` when `res` is
`None` (a method fell off its end without returning a result). -/
def noneGetItem : PyErr :=
  .typeError "NoneType object is unsubscriptable"

/-- Embeds `HDFSStorage.__singleExists` (lines 105-121): the bare
`hdfs.path.exists` wrapped so that any exception becomes `S_ERROR`; this
method itself never raises. -/
def singleExists (fs : HFS) (p : String) : DRes Bool :=
  match hdfsPathExists fs p with
  | .ok b => .ok b
  | .error e =>
    .err ("HDFSStorage.__singleExists: error while checking for existence " ++ e.text)

/-- Embeds `HDFSStorage.__existsHelper` (lines 63-76) as the truth value
its one caller tests: the helper returns the bool `res['Value']` on
success and the whole `S_ERROR` dictionary otherwise, and a non-empty
dictionary is truthy in Python. -/
def existsHelperTruthy (fs : HFS) (p : String) : Bool :=
  match singleExists fs p with
  | .ok b => b
  | .err _ => true

/-- The per-path loop of `HDFSStorage.exists` (lines 96-101).  On a
failed check the source runs `failed[url] = res['Value']`, but an
`S_ERROR` dictionary carries only `OK` and `Message` and no `Value`
key, so the lookup raises `KeyError` and the loop aborts. -/
def existsLoop : HFS → List String → List (String × Bool) → List (String × String) →
    Except PyErr (DRes (Env Bool String))
| _, [], succ, fail => .ok (.ok ⟨succ, fail⟩)
| fs, url :: rest, succ, fail =>
  match singleExists fs url with
  | .ok v => existsLoop fs rest (dset succ url v) fail
  | .err _ => .error (.keyError "Value")

/-- Embeds `HDFSStorage.exists` (lines 79-103). -/
def existsOp (fs : HFS) (arg : Arg) : Except PyErr (DRes (Env Bool String)) :=
  match normalizePaths arg with
  | .err m => .ok (.err m)
  | .ok urls => existsLoop fs urls [] []

/-- Embeds `HDFSStorage.__isSingleFile` (lines 159-187).  In the branch
for an `IOError` carrying `No such file`, the source builds
`S_ERROR(errStr)` but does not return it: the method falls off its end
and returns `None`, embedded as `none`. -/
def isSingleFile (fs : HFS) (p : String) : Except PyErr (Option (DRes Bool)) :=
  match hdfsPathIsfile fs p with
  | .ok b => .ok (some (.ok b))
  | .error (.ioError m) =>
    if containsSub m "No such file" then
      .ok none
    else
      .ok (some (.err ("HDFSStorage.__isSingleFile: IOError while retrieving path properties " ++ m)))
  | .error e =>
    .ok (some (.err ("HDFSStorage.__isSingleFile: Exception caught while retrieving path properties " ++ e.text)))

/-- The per-path loop of `HDFSStorage.isFile` (lines 149-155); testing
`res['OK']` on a `None` result raises `TypeError`. -/
def isFileLoop : HFS → List String → List (String × Bool) → List (String × String) →
    Except PyErr (DRes (Env Bool String))
| _, [], succ, fail => .ok (.ok ⟨succ, fail⟩)
| fs, url :: rest, succ, fail =>
  match isSingleFile fs url with
  | .error e => .error e
  | .ok none => .error noneGetItem
  | .ok (some (.ok v)) => isFileLoop fs rest (dset succ url v) fail
  | .ok (some (.err m)) => isFileLoop fs rest succ (dset fail url m)

/-- Embeds `HDFSStorage.isFile` (lines 129-157). -/
def isFile (fs : HFS) (arg : Arg) : Except PyErr (DRes (Env Bool String)) :=
  match normalizePaths arg with
  | .err m => .ok (.err m)
  | .ok urls => isFileLoop fs urls [] []

/-- Embeds `HDFSStorage.__getSingeFileSize` (lines 572-598), keeping the
misspelled source name: requires the path to be a file, then reads
`statInfo[0]['size']`; the final `except Exception` turns any stat
failure into `S_ERROR`. -/
def getSingeFileSize (fs : HFS) (p : String) : Except PyErr (DRes Nat) :=
  match isSingleFile fs p with
  | .error e => .error e
  | .ok none => .error noneGetItem
  | .ok (some (.err m)) => .ok (.err m)
  | .ok (some (.ok false)) => .ok (.err "HDFSStorage.__getSingleFileSize: Path is not a file.")
  | .ok (some (.ok true)) =>
    match hdfsStat fs p with
    | .ok (r :: _) => .ok (.ok r.size)
    | .ok [] => .error .indexError
    | .error e =>
      .ok (.err ("HDFSStorage.__getSingleFileSize: Failed to determine file size: " ++ e.text))

/-- Embeds `HDFSStorage.__removeSingleFile` (lines 421-455): first the
is-file check (aborting when the path is not a file), then `hdfs.rmr`;
an `IOError` from the removal is forgiven exactly when the exists helper
reports the path as absent. -/
def removeSingleFile (fs : HFS) (p : String) : Except PyErr (DRes Bool) × HFS :=
  match isSingleFile fs p with
  | .error e => (.error e, fs)
  | .ok none => (.error noneGetItem, fs)
  | .ok (some (.err m)) =>
    (.ok (.err ("HDFSStorage.__removeSingleFile: Failed to check if path is file or not: " ++ m)), fs)
  | .ok (some (.ok false)) =>
    (.ok (.err "HDFSStorage.__removeSingleFile: path is not a file, aborting the operation."), fs)
  | .ok (some (.ok true)) =>
    match hdfsRmr fs p with
    | (.ok _, fs1) => (.ok (.ok true), fs1)
    | (.error (.ioError m), fs1) =>
      if existsHelperTruthy fs1 p then
        (.ok (.err ("HDFSStorage.__removeSingleFile: IOError occured while trying to remove a file: " ++ m)), fs1)
      else
        (.ok (.ok true), fs1)
    | (.error e, fs1) =>
      (.ok (.err ("HDFSStorage.__removeSingleFile: Exception occured while trying to remove a file: " ++ e.text)), fs1)

/-- The per-path loop of `HDFSStorage.removeFile` (lines 411-417). -/
def removeFileLoop : HFS → List String → List (String × Bool) → List (String × String) →
    Except PyErr (DRes (Env Bool String)) × HFS
| fs, [], succ, fail => (.ok (.ok ⟨succ, fail⟩), fs)
| fs, url :: rest, succ, fail =>
  match removeSingleFile fs url with
  | (.error e, fs1) => (.error e, fs1)
  | (.ok (.ok v), fs1) => removeFileLoop fs1 rest (dset succ url v) fail
  | (.ok (.err m), fs1) => removeFileLoop fs1 rest succ (dset fail url m)

/-- Embeds `HDFSStorage.removeFile` (lines 391-419). -/
def removeFile (fs : HFS) (arg : Arg) : Except PyErr (DRes (Env Bool String)) × HFS :=
  match normalizePaths arg with
  | .err m => (.ok (.err m), fs)
  | .ok urls => removeFileLoop fs urls [] []

/-- Embeds `HDFSStorage.__getSingleFile` (lines 226-276): first a
pre-existing local destination file is deleted, then the remote size is
determined (failing fast on error), then the copy runs and the local
size is compared to the remote size, deleting the local artifact on a
mismatch. -/
def getSingleFile (fs : HFS) (lfs : LFS) (src dest : String) : Except PyErr (DRes Nat) × LFS :=
  let lfs1 := if localExists lfs dest then lremove lfs dest else lfs
  match getSingeFileSize fs src with
  | .error e => (.error e, lfs1)
  | .ok (.err m) =>
    (.ok (.err ("HDFSStorage.__getSingleFile: Error while determinig file size: " ++ m)), lfs1)
  | .ok (.ok remoteSize) =>
    let destq := if strStartsWith dest "file:" then dest else "file://" ++ dest
    match hdfsCpOut fs lfs1 src destq with
    | (.error (.ioError m), lfs2) =>
      if containsSub m "Cannot open file" then
        (.ok (.err "HDFSStorage.__getSingleFile: No access to create directory/file in destination."), lfs2)
      else
        (.ok (.err ("HDFSStorage.__getSingleFile: IOError while trying to download file: " ++ m)), lfs2)
    | (.error e, lfs2) =>
      (.ok (.err ("HDFSStorage.__getSingleFile: error while downloading file: " ++ e.text)), lfs2)
    | (.ok _, lfs2) =>
      if localGetSize lfs2 dest = (remoteSize : Int) then
        (.ok (.ok remoteSize), lfs2)
      else
        (.ok (.err ("HDFSStorage.__getSingleFile: File sizes don\x27t match (remote: " ++
            toString remoteSize ++ " vs dest: " ++ toString (localGetSize lfs2 dest) ++
            "). Something went wrong, removing local file " ++ dest)),
          if localExists lfs2 dest then lremove lfs2 dest else lfs2)

/-- Embeds `HDFSStorage.__putSingleFile` (lines 308-388): source checks,
overwrite-via-delete, `hdfs.put`, post-transfer size check, and the
delete-then-report failure path.  The local variable `remoteSize` is
only assigned inside the post-transfer check, so the final error format
raises `UnboundLocalError` whenever that assignment was never reached
(copy failure, or failure to read the remote size) and the cleanup
removal succeeded. -/
def putSingleFile (lfs : LFS) (fs : HFS) (src dest : String) : Except PyErr (DRes Int) × HFS :=
  if !(localExists lfs src) || !(localIsFile lfs src) then
    (.ok (.err "HDFSStorage.__putSingleFile: The local source file does not exist or is not a file"), fs)
  else
    let sourceSize := localGetSize lfs src
    if sourceSize = -1 then
      (.ok (.err "HDFSStorage.__putSingleFile: Failed to get file size."), fs)
    else if sourceSize = 0 then
      (.ok (.err "HDFSStorage.__putSingleFile: Source size is zero."), fs)
    else
      match singleExists fs dest with
      | .err _ =>
        (.ok (.err "HDFSStorage.__putSingleFile: Error while determining existence of file on storage."), fs)
      | .ok exVal =>
        match (if exVal then removeSingleFile fs dest else (.ok (.ok true), fs) :
            Except PyErr (DRes Bool) × HFS) with
        | (.error e, fs1) => (.error e, fs1)
        | (.ok (.err m), fs1) => (.ok (.err m), fs1)
        | (.ok (.ok _), fs1) =>
          let put := hdfsPut fs1 dest sourceSize.toNat
          let fs2 := put.2
          match (match put.1 with
                 | .ok _ =>
                   match getSingeFileSize fs2 dest with
                   | .error e => Sum.inl (.error e)
                   | .ok (.ok r) =>
                     if sourceSize = (r : Int) then Sum.inl (.ok (.ok sourceSize))
                     else Sum.inr (some r)
                   | .ok (.err _) => Sum.inr none
                 | .error _ => Sum.inr none :
                 Sum (Except PyErr (DRes Int)) (Option Nat)) with
          | Sum.inl out => (out, fs2)
          | Sum.inr remoteSizeOpt =>
            match removeSingleFile fs2 dest with
            | (.error e, fs3) => (.error e, fs3)
            | (.ok (.err m), fs3) =>
              (.ok (.err ("HDFSStorage.__putSingleFile: Failed to remove destination file: " ++ m)), fs3)
            | (.ok (.ok _), fs3) =>
              match remoteSizeOpt with
              | none => (.error (.unboundLocal "remoteSize"), fs3)
              | some r =>
                (.ok (.err ("HDFSStorage.__putSingleFile: Source and destination file sizes do not match (source size: " ++
                    toString sourceSize ++ ", dest size: " ++ toString r ++
                    "). Removed destination file")), fs3)

/-- The per-item loop of `HDFSStorage.putFile` (lines 293-304).  An
empty source aborts the whole call with `S_ERROR`; every other item
reaches `res = self.__putSingleFile()` — a call with no arguments to a
method with two required parameters — which raises `TypeError`, so no
item is ever uploaded and the loop never reaches a second item. -/
def putFileLoop : LFS → HFS → List (String × String) → List (String × Nat) →
    List (String × String) → Except PyErr (DRes (Env Nat String)) × HFS
| _, fs, [], succ, fail => (.ok (.ok ⟨succ, fail⟩), fs)
| _, fs, (_, src) :: _, _, _ =>
  if src = "" then
    (.ok (.err "HDFSStorage.putFile: Source file not set. Argument must be a dictionary \x7burl : local path\x7d"), fs)
  else
    (.error (.typeError "__putSingleFile() takes exactly 3 arguments (1 given)"), fs)

/-- Embeds `HDFSStorage.putFile` (lines 279-306). -/
def putFile (lfs : LFS) (fs : HFS) (arg : Arg) : Except PyErr (DRes (Env Nat String)) × HFS :=
  match normalizeMapping arg with
  | .err m => (.ok (.err m), fs)
  | .ok urls => putFileLoop lfs fs urls [] []

/-- The canonical metadata structure `__convertMetadataDict` is meant to
build (kind flags, permission mode, file size). -/
structure Metadata where
  File : Bool
  Directory : Bool
  Mode : Nat
  Size : Nat
deriving DecidableEq, Repr

/-- Embeds `HDFSStorage.__convertMetadataDict` (lines 530-541).  Both
call sites pass a single stat record (one dictionary of the `hdfs.lsl`
list), yet the body indexes its argument with 0 once more
(`stats[0]['kind']`), so in Python 2 every call raises `KeyError: 0`
before reading any field. -/
def convertMetadataDict (_r : StatRec) : Except PyErr Metadata :=
  .error (.keyError "0")

/-- The partition a directory listing is folded into: file metadata and
subdirectory metadata, each keyed by path. -/
structure ListingOut where
  Files : List (String × Metadata)
  SubDirs : List (String × Metadata)
deriving DecidableEq, Repr

/-- The per-entry loop of `HDFSStorage.__listSingleDirectory` (lines
1157-1165); it lies outside the `try`, so the `KeyError` from
`convertMetadataDict` propagates out of the method.  The branch for an
entry that is neither file nor directory applies `%` to the boolean
returned by the debug call, which raises `TypeError` against a string
operand; both branches after the conversion are unreachable because the
conversion always raises first. -/
def listDirLoop : List StatRec → List (String × Metadata) → List (String × Metadata) →
    Except PyErr ListingOut
| [], files, subDirs => .ok ⟨files, subDirs⟩
| r :: rest, files, subDirs =>
  match convertMetadataDict r with
  | .error e => .error e
  | .ok md =>
    if md.Directory then listDirLoop rest files (dset subDirs r.name md)
    else if md.File then listDirLoop rest (dset files r.name md) subDirs
    else .error (.typeError "unsupported operand type for int and str")

/-- Embeds `HDFSStorage.__listSingleDirectory` (lines 1126-1167). -/
def listSingleDirectory (fs : HFS) (p : String) (recursive : Bool) :
    Except PyErr (DRes ListingOut) :=
  match hdfsList fs p recursive with
  | .error (.ioError m) =>
    if containsSub m "No such file" then
      .ok (.err "HDFSStorage.__listSingleDirectory: Path does not exist.")
    else
      .ok (.err ("HDFSStorage.__listSingleDirectory: IOError while trying to list the directory: " ++ m))
  | .error e =>
    .ok (.err ("HDFSStorage.__listSingleDirectory: Exception caught while trying to list the directory: " ++ e.text))
  | .ok listing =>
    match listDirLoop listing [] [] with
    | .error e => .error e
    | .ok out => .ok (.ok out)

/-- Embeds `HDFSStorage.__isSingleDirectory` (lines 664-693): reads the
kind of the first stat record.  As in `__isSingleFile`, the branch for
an `IOError` carrying `No such file` builds `S_ERROR` without returning
it, so the method returns `None` there. -/
def isSingleDirectory (fs : HFS) (p : String) : Except PyErr (Option (DRes Bool)) :=
  match hdfsStat fs p with
  | .ok (r :: _) => .ok (some (.ok (r.kind == HKind.dir)))
  | .ok [] => .error .indexError
  | .error (.ioError m) =>
    if containsSub m "No such file" then
      .ok none
    else
      .ok (some (.err ("HDFSStorage.__isSingleDirectory: IOError while retrieving path properties " ++ m)))
  | .error e =>
    .ok (some (.err ("HDFSStorage.__isSingleDirectory: Exception caught while retrieving path properties " ++ e.text)))

/-- The aggregate a directory size computation returns: number of
files, summed file size, number of subdirectories. -/
structure DirSize where
  Files : Nat
  Size : Nat
  SubDirs : Nat
deriving DecidableEq, Repr

/-- Embeds `HDFSStorage.__getSingleDirectorySize` (lines 1252-1276):
folds the listing into counts and a size sum. -/
def getSingleDirectorySize (fs : HFS) (p : String) (recursive : Bool) :
    Except PyErr (DRes DirSize) :=
  match listSingleDirectory fs p recursive with
  | .error e => .error e
  | .ok (.err m) => .ok (.err m)
  | .ok (.ok L) =>
    .ok (.ok ⟨L.Files.length, (L.Files.map (fun f => f.2.Size)).sum, L.SubDirs.length⟩)

/-- The outcome record of a single directory removal. -/
structure RemOut where
  AllRemoved : Bool
  FilesRemoved : Nat
  SizeRemoved : Nat
deriving DecidableEq, Repr

/-- The per-file loop of the non-recursive branch of
`HDFSStorage.__removeSingleDirectory` (lines 1060-1067): counts
successful removals and their sizes, and clears the all-removed flag on
a failure without aborting. -/
def removeDirFilesLoop : HFS → List (String × Metadata) → Bool → Nat → Nat →
    Except PyErr (Bool × Nat × Nat) × HFS
| fs, [], allR, fr, sr => (.ok (allR, fr, sr), fs)
| fs, (path, md) :: rest, allR, fr, sr =>
  match removeSingleFile fs path with
  | (.error e, fs1) => (.error e, fs1)
  | (.ok (.ok _), fs1) => removeDirFilesLoop fs1 rest allR (fr + 1) (sr + md.Size)
  | (.ok (.err _), fs1) => removeDirFilesLoop fs1 rest false fr sr

/-- Embeds `HDFSStorage.__removeSingleDirectory` (lines 1003-1079).  For
the recursive flavour the statistics are computed first and a single
`hdfs.rmr` removes the subtree; for the non-recursive flavour the listed
files are removed one by one and the directory itself is removed only
when all removals succeeded and no subdirectory remains. -/
def removeSingleDirectory (fs : HFS) (p : String) (recursive : Bool) :
    Except PyErr (DRes RemOut) × HFS :=
  match isSingleDirectory fs p with
  | .error e => (.error e, fs)
  | .ok none => (.error noneGetItem, fs)
  | .ok (some (.err m)) => (.ok (.err m), fs)
  | .ok (some (.ok false)) =>
    (.ok (.err "HDFSStorage.__removeSingleDirectory: Path is not a directory"), fs)
  | .ok (some (.ok true)) =>
    if recursive then
      match getSingleDirectorySize fs p true with
      | .error e => (.error e, fs)
      | .ok (.err m) => (.ok (.err m), fs)
      | .ok (.ok d) =>
        match hdfsRmr fs p with
        | (.error (.ioError m), fs1) =>
          (.ok (.err ("HDFSStorage.__removeSingleDirectory: Failed to remove directory. " ++ m)), fs1)
        | (.error e, fs1) => (.error e, fs1)
        | (.ok _, fs1) => (.ok (.ok ⟨true, d.Files, d.Size⟩), fs1)
    else
      match listSingleDirectory fs p false with
      | .error e => (.error e, fs)
      | .ok (.err _) =>
        (.ok (.err "HDFSStorage.__removeSingleDirectory: Failed to list the directory."), fs)
      | .ok (.ok L) =>
        match removeDirFilesLoop fs L.Files true 0 0 with
        | (.error e, fs1) => (.error e, fs1)
        | (.ok (allR, fr, sr), fs1) =>
          if allR && L.SubDirs.isEmpty then
            match hdfsRmr fs1 p with
            | (.ok _, fs2) => (.ok (.ok ⟨true, fr, sr⟩), fs2)
            | (.error (.ioError _), fs2) => (.ok (.ok ⟨false, fr, sr⟩), fs2)
            | (.error e, fs2) => (.error e, fs2)
          else
            (.ok (.ok ⟨allR, fr, sr⟩), fs1)

/-- The per-path loop of `HDFSStorage.removeDirectory` (lines 986-999):
the outcome record goes to `Successful` or `Failed` depending on the
all-removed flag; a complete failure puts the message in `Failed`. -/
def removeDirLoop : HFS → List String → Bool → List (String × (Nat × Nat)) →
    List (String × (Sum (Nat × Nat) String)) →
    Except PyErr (DRes (Env (Nat × Nat) (Sum (Nat × Nat) String))) × HFS
| fs, [], _, succ, fail => (.ok (.ok ⟨succ, fail⟩), fs)
| fs, url :: rest, recursive, succ, fail =>
  match removeSingleDirectory fs url recursive with
  | (.error e, fs1) => (.error e, fs1)
  | (.ok (.err m), fs1) => removeDirLoop fs1 rest recursive succ (dset fail url (Sum.inr m))
  | (.ok (.ok r), fs1) =>
    if r.AllRemoved then
      removeDirLoop fs1 rest recursive (dset succ url (r.FilesRemoved, r.SizeRemoved)) fail
    else
      removeDirLoop fs1 rest recursive succ (dset fail url (Sum.inl (r.FilesRemoved, r.SizeRemoved)))

/-- Embeds `HDFSStorage.removeDirectory` (lines 964-1001). -/
def removeDirectory (fs : HFS) (arg : Arg) (recursive : Bool) :
    Except PyErr (DRes (Env (Nat × Nat) (Sum (Nat × Nat) String))) × HFS :=
  match normalizePaths arg with
  | .err m => (.ok (.err m), fs)
  | .ok urls => removeDirLoop fs urls recursive [] []

/-- The outcome record of a single directory upload. -/
structure POut where
  AllPut : Bool
  Files : Nat
  Size : Nat
deriving DecidableEq, Repr

mutual

/-- Embeds `HDFSStorage.__putSingleDirectory` (lines 733-786): walks the
children, recursing into subdirectories and collecting files into one
batch that is handed to `putFile` at the end of the level. -/
def putSingleDirectory (fs : HFS) (t : LTree) (src dest : String) :
    Except PyErr (DRes POut) × HFS :=
  match t with
  | .file _ _ =>
    (.ok (.err "HDFSStorage.__putSingleDirectory: The supplied source directory does not exist or is not a directory."), fs)
  | .dir nm children =>
    match putDirChildrenLoop fs children src dest none true 0 0 [] with
    | (.error e, fs1) => (.error e, fs1)
    | (.ok (_, allS, filesPut, sizePut, dirFiles), fs1) =>
      if dirFiles.isEmpty then
        (.ok (.ok ⟨allS, filesPut, sizePut⟩), fs1)
      else
        match putFile (treeEntries (.dir nm children) src) fs1 (Arg.mapping dirFiles) with
        | (.error e, fs2) => (.error e, fs2)
        | (.ok (.err _), fs2) => (.ok (.ok ⟨false, filesPut, sizePut⟩), fs2)
        | (.ok (.ok env), fs2) =>
          (.ok (.ok ⟨(if env.Failed.isEmpty then allS else false),
            filesPut + env.Successful.length,
            sizePut + (env.Successful.map (fun kv => kv.2)).sum⟩), fs2)

/-- The per-entry loop of `__putSingleDirectory` (lines 758-773).  The
Python local `res` is assigned only in the subdirectory branch, yet the
`if not res['OK']` check that follows runs for file entries too: on a
file entry before any subdirectory was processed it raises
`UnboundLocalError`, and after one it re-reads the stale result of the
previous iteration (double-counting its Files and Size). -/
def putDirChildrenLoop (fs : HFS) (children : List LTree) (src dest : String)
    (resVar : Option (DRes POut)) (allS : Bool) (filesPut sizePut : Nat)
    (dirFiles : List (String × String)) :
    Except PyErr (Option (DRes POut) × Bool × Nat × Nat × List (String × String)) × HFS :=
  match children with
  | [] => (.ok (resVar, allS, filesPut, sizePut, dirFiles), fs)
  | c :: rest =>
    let localPath := src ++ "/" ++ c.name
    let remotePath := dest ++ "/" ++ c.name
    if c.isDir then
      match putSingleDirectory fs c localPath remotePath with
      | (.error e, fs1) => (.error e, fs1)
      | (.ok (.err m), fs1) =>
        putDirChildrenLoop fs1 rest src dest (some (.err m)) allS filesPut sizePut dirFiles
      | (.ok (.ok pr), fs1) =>
        putDirChildrenLoop fs1 rest src dest (some (.ok pr))
          (if pr.AllPut then allS else false) (filesPut + pr.Files) (sizePut + pr.Size) dirFiles
    else
      let dirFiles1 := dset dirFiles remotePath localPath
      match resVar with
      | none => (.error (.unboundLocal "res"), fs)
      | some (.err m) =>
        putDirChildrenLoop fs rest src dest (some (.err m)) allS filesPut sizePut dirFiles1
      | some (.ok pr) =>
        putDirChildrenLoop fs rest src dest (some (.ok pr))
          (if pr.AllPut then allS else false) (filesPut + pr.Files) (sizePut + pr.Size) dirFiles1

end

/-- Resolves the local source path through a local view of the
filesystem and runs `__putSingleDirectory` on the resolved tree; an
unresolved path yields exactly the error the method produces when
`os.path.isdir` is false. -/
def putSingleDirectoryAt (lview : String → Option LTree) (fs : HFS) (src dest : String) :
    Except PyErr (DRes POut) × HFS :=
  match lview src with
  | some t => putSingleDirectory fs t src dest
  | none =>
    (.ok (.err "HDFSStorage.__putSingleDirectory: The supplied source directory does not exist or is not a directory."), fs)

/-- The per-item loop of `HDFSStorage.putDirectory` (lines 714-729): an
empty source aborts the whole call with `S_ERROR`; otherwise the
outcome goes to `Successful` or `Failed` depending on the all-put flag,
and a complete failure records zero counts in `Failed`. -/
def putDirectoryLoop : (String → Option LTree) → HFS → List (String × String) →
    List (String × (Nat × Nat)) → List (String × (Nat × Nat)) →
    Except PyErr (DRes (Env (Nat × Nat) (Nat × Nat))) × HFS
| _, fs, [], succ, fail => (.ok (.ok ⟨succ, fail⟩), fs)
| lview, fs, (destDir, sourceDir) :: rest, succ, fail =>
  if sourceDir = "" then
    (.ok (.err "HDFSStorage.putDirectory: No source directory set, make sure the input format is correct \x7b dest. dir : source dir \x7d"), fs)
  else
    match putSingleDirectoryAt lview fs sourceDir destDir with
    | (.error e, fs1) => (.error e, fs1)
    | (.ok (.ok r), fs1) =>
      if r.AllPut then
        putDirectoryLoop lview fs1 rest (dset succ destDir (r.Files, r.Size)) fail
      else
        putDirectoryLoop lview fs1 rest succ (dset fail destDir (r.Files, r.Size))
    | (.ok (.err _), fs1) => putDirectoryLoop lview fs1 rest succ (dset fail destDir (0, 0))

/-- Embeds `HDFSStorage.putDirectory` (lines 696-730). -/
def putDirectory (lview : String → Option LTree) (fs : HFS) (arg : Arg) :
    Except PyErr (DRes (Env (Nat × Nat) (Nat × Nat))) × HFS :=
  match normalizeMapping arg with
  | .err m => (.ok (.err m), fs)
  | .ok urls => putDirectoryLoop lview fs urls [] []

/-- No failure injection. -/
def noFail : String → Option String := fun _ => none

/-- No failure injection for `hdfs.put`. -/
def noFailPut : String → Option (String × Option Nat) := fun _ => none

/-- A healthy remote state over the given entries: every primitive
behaves nominally. -/
def baseFS (es : List (String × HKind)) : HFS :=
  ⟨es, noFail, noFail, noFail, noFail, noFailPut, noFail⟩

/-- C1: removing a path that does not exist is promised (by the spec and
by the docstrings of `removeFile` and `__removeSingleFile`) to land in
`Successful` with value `True`.  The code first asks `hdfs.path.isfile`,
which returns `False` for a missing path, and aborts with
`path is not a file`, so the missing path lands in `Failed` instead:
here the storage holds only the directory `hdfs://se/data` and the
removal of the absent `hdfs://se/data/nofile` fails. -/
theorem C1_removeFile_missing_path_fails :
    (removeFile (baseFS [("hdfs://se/data", HKind.dir)]) (Arg.one "hdfs://se/data/nofile")).1 =
      Except.ok (DRes.ok ⟨[],
        [("hdfs://se/data/nofile",
          "HDFSStorage.__removeSingleFile: path is not a file, aborting the operation.")]⟩) := by
  rfl

/-- C2: the Successful/Failed envelope is promised to cover exactly the
input path set for every batch operation, but `putFile` on any non-empty
mapping raises `TypeError` (its helper is invoked with no arguments)
before any envelope is built, so no envelope is returned at all. -/
theorem C2_putFile_raises_before_envelope :
    (putFile [("/tmp/f", LEntry.file 12)] (baseFS [])
        (Arg.mapping [("hdfs://se/data/f", "/tmp/f")])).1 =
      Except.error (PyErr.typeError "__putSingleFile() takes exactly 3 arguments (1 given)") := by
  rfl

/-- C3: a per-item failure is promised never to abort a batch, yet when
the first mapping entry carries an empty source, `putFile` returns
`S_ERROR` for the whole call: the second entry is never attempted and no
per-item `Failed` entry is recorded. -/
theorem C3_putFile_per_item_failure_aborts_batch :
    (putFile [("/tmp/f1", LEntry.file 10)] (baseFS [])
        (Arg.mapping [("hdfs://se/d2", ""), ("hdfs://se/d1", "/tmp/f1")])).1 =
      Except.ok (DRes.err "HDFSStorage.putFile: Source file not set. Argument must be a dictionary \x7burl : local path\x7d") := by
  rfl

/-- C4: non-recursive `removeDirectory` on an existing directory is
promised to remove its files and then the directory.  Listing the
directory runs every entry through `__convertMetadataDict`, which
indexes its single-record argument with 0 and raises `KeyError: 0`, so
the call aborts before removing anything: here the directory holds one
file and the whole call raises. -/
theorem C4_removeDirectory_raises_keyError :
    (removeDirectory (baseFS [("hdfs://se/dir", HKind.dir), ("hdfs://se/dir/a.txt", HKind.file 10)])
        (Arg.one "hdfs://se/dir") false).1 =
      Except.error (PyErr.keyError "0") := by
  rfl

/-- A local directory with three files of 100 bytes each. -/
def tree3 : LTree :=
  .dir "ldir" [.file "a" 100, .file "b" 100, .file "c" 100]

/-- A local view resolving `/data/ldir` to that directory. -/
def lviewC5 : String → Option LTree :=
  fun p => if p = "/data/ldir" then some tree3 else none

/-- C5: `putDirectory` of a directory with three files totalling 300
bytes is promised to return `AllPut` with 3 files and 300 bytes.  The
first loop iteration of `__putSingleDirectory` hits a file entry and
reads the loop-local `res` before it was ever assigned, so the call
raises `UnboundLocalError` instead. -/
theorem C5_putDirectory_raises_unboundLocal :
    (putDirectory lviewC5 (baseFS []) (Arg.mapping [("hdfs://se/up", "/data/ldir")])).1 =
      Except.error (PyErr.unboundLocal "res") := by
  rfl

/-- Remote state for the upload-rollback scenario: the destination does
not exist, `hdfs.put` to it fails leaving a 3-byte partial artifact, and
every other primitive behaves nominally. -/
def fsC6 : HFS :=
  ⟨[], noFail, noFail, noFail, noFail,
    (fun p => if p = "hdfs://se/data/f" then some ("hdfs://se/data/f: copy failed", some 3) else none),
    noFail⟩

/-- C6: when the copy fails, the claim promises cleanup of the remote
artifact followed by a per-item error naming the mismatch.  The cleanup
does run and succeeds, but the error format then reads `remoteSize`,
which is only assigned on the post-transfer size check that the failed
copy never reached, so the method raises `UnboundLocalError` instead of
returning the error: uploading a 5-byte local file while the copy fails
with a 3-byte partial artifact. -/
theorem C6_putSingleFile_copy_failure_cleanup_raises :
    (putSingleFile [("/tmp/f", LEntry.file 5)] fsC6 "/tmp/f" "hdfs://se/data/f").1 =
      Except.error (PyErr.unboundLocal "remoteSize") := by
  rfl

/-- Remote state where `hdfs.path.isfile` on the probed path raises
`IOError` with the `No such file` marker — the hypothesis of claim C8
(the stat primitive raises a not-found error). -/
def fsC8 : HFS :=
  ⟨[("hdfs://se/data", HKind.dir)], noFail,
    (fun p => if p = "hdfs://se/data/gone"
              then some "No such file or directory: hdfs://se/data/gone" else none),
    noFail, noFail, noFailPut, noFail⟩

/-- C8: a missing path probed by `isFile` is promised to land in
`Failed` with a does-not-exist error.  The branch of `__isSingleFile`
that catches the not-found `IOError` builds `S_ERROR` but does not
return it, so the method returns `None`, and the `res['OK']` test in
`isFile` then raises `TypeError`: the whole call aborts with no
envelope. -/
theorem C8_isFile_missing_path_raises :
    isFile fsC8 (Arg.one "hdfs://se/data/gone") =
      Except.error (PyErr.typeError "NoneType object is unsubscriptable") := by
  rfl

theorem llookup_lremove_self (lfs : LFS) (p : String) :
    llookup (lremove lfs p) p = none := by
  induction lfs with
  | nil => rfl
  | cons kv rest ih =>
    unfold lremove at ih ⊢
    cases h : kv.1 == p with
    | true =>
      simp only [List.filter, h, Bool.not_true]
      exact ih
    | false =>
      simp only [List.filter, h, Bool.not_false]
      unfold llookup
      simp only [List.find?, h]
      exact ih

theorem localExists_lremove_self (lfs : LFS) (p : String) :
    localExists (lremove lfs p) p = false := by
  simp [localExists, llookup_lremove_self]

/-- Remote state and local state of the download scenario: the remote
side holds only a directory, so the size of the probed path cannot be
determined, while the local destination file exists before the call. -/
def fsC7 : HFS := baseFS [("hdfs://se/data", HKind.dir)]

/-- The local state of the download scenario. -/
def lfsC7 : LFS := [("/tmp/out", LEntry.file 7)]

/-- C7 counterexample: the claim says a download that fails to determine
the remote size leaves a pre-existing local destination file unchanged.
Here the local destination exists before the call (first conjunct), the
size determination fails and the call returns its error (second
conjunct), yet the local destination file is gone afterwards (third
conjunct): the deletion happens before the size check, not after it. -/
theorem C7_counterexample_local_file_deleted :
    localExists lfsC7 "/tmp/out" = true ∧
    (getSingleFile fsC7 lfsC7 "hdfs://se/data/nofile" "/tmp/out").1 =
      Except.ok (DRes.err "HDFSStorage.__getSingleFile: Error while determinig file size: HDFSStorage.__getSingleFileSize: Path is not a file.") ∧
    localExists (getSingleFile fsC7 lfsC7 "hdfs://se/data/nofile" "/tmp/out").2 "/tmp/out" = false := by
  exact ⟨rfl, rfl, rfl⟩

/-- C7 amended: `__getSingleFile` deletes a pre-existing file at the
local destination first and determines the remote size only afterwards;
a download that fails to determine the remote size therefore returns the
size error with the pre-existing local destination file already
deleted. -/
theorem C7_local_delete_precedes_size_check (fs : HFS) (lfs : LFS) (src dest m : String)
    (hdest : localExists lfs dest = true)
    (hsize : getSingeFileSize fs src = Except.ok (DRes.err m)) :
    (getSingleFile fs lfs src dest).1 =
      Except.ok (DRes.err ("HDFSStorage.__getSingleFile: Error while determinig file size: " ++ m)) ∧
    localExists (getSingleFile fs lfs src dest).2 dest = false := by
  have key : getSingleFile fs lfs src dest =
      (Except.ok (DRes.err ("HDFSStorage.__getSingleFile: Error while determinig file size: " ++ m)),
        lremove lfs dest) := by
    unfold getSingleFile
    rw [hdest, hsize]
    rfl
  rw [key]
  exact ⟨rfl, localExists_lremove_self lfs dest⟩

/-- C7 witness: the amended statement holds at the concrete download
scenario, with both hypotheses discharged by evaluation. -/
theorem C7_witness :
    localExists lfsC7 "/tmp/out" = true ∧
    getSingeFileSize fsC7 "hdfs://se/data/nofile" =
      Except.ok (DRes.err "HDFSStorage.__getSingleFileSize: Path is not a file.") ∧
    ((getSingleFile fsC7 lfsC7 "hdfs://se/data/nofile" "/tmp/out").1 =
      Except.ok (DRes.err ("HDFSStorage.__getSingleFile: Error while determinig file size: " ++
        "HDFSStorage.__getSingleFileSize: Path is not a file.")) ∧
     localExists (getSingleFile fsC7 lfsC7 "hdfs://se/data/nofile" "/tmp/out").2 "/tmp/out" = false) := by
  exact ⟨rfl, rfl,
    C7_local_delete_precedes_size_check fsC7 lfsC7 "hdfs://se/data/nofile" "/tmp/out"
      "HDFSStorage.__getSingleFileSize: Path is not a file." rfl rfl⟩

theorem existsLoop_failure_aborts (fs : HFS) :
    ∀ (l : List String) (succ : List (String × Bool)) (fail : List (String × String)),
      (∃ p ∈ l, (fs.failExists p).isSome = true) →
      existsLoop fs l succ fail = Except.error (PyErr.keyError "Value") := by
  intro l
  induction l with
  | nil =>
    intro _ _ h
    rcases h with ⟨p, hp, _⟩
    cases hp
  | cons x xs ih =>
    intro succ fail h
    rw [existsLoop]
    cases hx : fs.failExists x with
    | some m => simp [singleExists, hdfsPathExists, hx]
    | none =>
      have hse : singleExists fs x = DRes.ok (fs.mem x) := by
        simp [singleExists, hdfsPathExists, hx]
      rw [hse]
      rcases h with ⟨p, hp, hps⟩
      rcases List.mem_cons.mp hp with h1 | h2
      · rw [h1, hx] at hps
        cases hps
      · exact ih _ _ ⟨p, h2, hps⟩

/-- C9: when the underlying existence check fails for some path of a
batch `exists` call, the call never returns the Successful/Failed
envelope: the loop records the failure via `failed[url] = res['Value']`,
but an `S_ERROR` result carries no `Value` key, so the whole call aborts
with a `KeyError` lookup error. -/
theorem C9_exists_failure_aborts (fs : HFS) (ps : List String) (p : String)
    (hp : p ∈ ps) (hf : (fs.failExists p).isSome = true) :
    existsOp fs (Arg.many ps) = Except.error (PyErr.keyError "Value") := by
  show existsLoop fs (dedup ps) [] [] = Except.error (PyErr.keyError "Value")
  exact existsLoop_failure_aborts fs (dedup ps) [] [] ⟨p, mem_dedup hp, hf⟩

/-- Remote state whose existence primitive fails on one path. -/
def fsC9 : HFS :=
  ⟨[("hdfs://se/ok", HKind.file 1)],
    (fun p => if p = "hdfs://se/bad" then some "connection refused" else none),
    noFail, noFail, noFail, noFailPut, noFail⟩

/-- C9 witness: a two-path `exists` batch whose second path makes the
existence primitive fail aborts with the `KeyError` lookup error. -/
theorem C9_witness :
    ("hdfs://se/bad" ∈ ["hdfs://se/ok", "hdfs://se/bad"] ∧
      (fsC9.failExists "hdfs://se/bad").isSome = true) ∧
    existsOp fsC9 (Arg.many ["hdfs://se/ok", "hdfs://se/bad"]) =
      Except.error (PyErr.keyError "Value") := by
  have h1 : "hdfs://se/bad" ∈ ["hdfs://se/ok", "hdfs://se/bad"] := by
    exact List.mem_cons_of_mem _ (List.mem_cons_self _ _)
  exact ⟨⟨h1, rfl⟩, C9_exists_failure_aborts fsC9 _ "hdfs://se/bad" h1 rfl⟩
